import Mathlib

/-!
Shallow embedding of the pairwise submission-similarity core of the
Grade-Flow repository (file `plagiarism_detector.py`).

Numbers are modelled with `ℚ` (the Python code computes with floats but
every claim under scrutiny is about order/threshold/weighted-sum structure,
not float rounding).  External third-party collaborators that the module
calls (difflib `SequenceMatcher.ratio`, scikit-learn TF-IDF cosine,
the sentence-transformer embedding cosine, NLTK sentence tokenization and
stop-word data, textstat readability statistics, the wall clock) are
packaged as the explicit dependency record `Ext`; a `tfidfCosine` or
`semanticCosine` result of `none` models the `except:` branches of the
source, which substitute `0.0`.  Everything written by the repository
itself is translated definition by definition.
-/

namespace GradeFlow

/-- Accumulator loop computing Python `str.split()`: whitespace-delimited
words, no empty tokens. -/
def wordsAux : List Char → List Char → List String
  | [], acc => if acc = [] then [] else [String.mk acc.reverse]
  | c :: cs, acc =>
    if c.isWhitespace then
      if acc = [] then wordsAux cs []
      else String.mk acc.reverse :: wordsAux cs []
    else wordsAux cs (c :: acc)

/-- Python `str.split()` (no argument): split on whitespace runs, no empty
tokens.  Also used to model NLTK `word_tokenize` on preprocessed text, which
at that point contains only word characters and spaces. -/
def pySplit (s : String) : List String := wordsAux s.data []

/-- Python `str.strip()`: drop leading and trailing whitespace. -/
def pyStrip (s : String) : String :=
  String.mk (((s.data.dropWhile Char.isWhitespace).reverse.dropWhile
    Char.isWhitespace).reverse)

/-- Python `str.lower()` on the ASCII texts under consideration. -/
def lowerStr (s : String) : String := String.mk (s.data.map Char.toLower)

/-- Python `round(x, 2)` on the percentage values stored in a result
(banker-rounding-on-floats modelled as round-to-nearest on `ℚ`; no claim
depends on tie behaviour). -/
def pyRound2 (x : ℚ) : ℚ := ((round (x * 100) : ℤ) : ℚ) / 100

/-- ASCII model of the regex class `\w` used in `re.sub(r'[^\w\s]', ' ', text)`. -/
def isWordChar (c : Char) : Bool := c.isAlphanum || c = '_'

/-- Line 62 of the source: replace every character that is neither a word
character nor whitespace by a space. -/
def stripPunct (s : String) : String :=
  String.mk (s.data.map (fun c => if isWordChar c || c.isWhitespace then c else ' '))

/-- Line 63: `re.sub(r'\d+', '', text)` — delete all digit characters. -/
def stripDigits (s : String) : String :=
  String.mk (s.toList.filter (fun c => !c.isDigit))

/-- Line 59: `re.sub(r'\s+', ' ', text).strip()` — collapse whitespace runs
to single spaces and strip the ends. -/
def collapseWs (s : String) : String := " ".intercalate (pySplit s)

/-- `PlagiarismDetector.MINIMUM_TEXT_LENGTH` (constructor, line 48). -/
def MINIMUM_TEXT_LENGTH : Nat := 50

/-- `PlagiarismDetector.EXACT_MATCH_THRESHOLD` (line 45). -/
def EXACT_MATCH_THRESHOLD : ℚ := 0.95

/-- `PlagiarismDetector.HIGH_SIMILARITY_THRESHOLD` (line 46). -/
def HIGH_SIMILARITY_THRESHOLD : ℚ := 0.85

/-- `PlagiarismDetector.MODERATE_SIMILARITY_THRESHOLD` (line 47). -/
def MODERATE_SIMILARITY_THRESHOLD : ℚ := 0.70

/-- External collaborators of the detector, injected as data:
NLTK stop words, difflib `SequenceMatcher(None, a, b).ratio()`,
TF-IDF cosine and sentence-embedding cosine (with `none` for the
exception path), NLTK `sent_tokenize`, the textstat statistics and the
timestamp the comparison is stamped with. -/
structure Ext where
  stop_words : List String
  ratioFn : String → String → ℚ
  tfidfCosine : String → String → Option ℚ
  semanticCosine : String → String → Option ℚ
  sentTokenize : String → List String
  avgSentenceLength : String → ℚ
  fleschReadingEase : String → ℚ
  avgSyllablesPerWord : String → ℚ
  sentenceCountFn : String → ℚ
  nowIso : String

/-- The five metric outputs of `calculate_similarity_scores` (lines 71-122). -/
structure SimScores where
  exact_similarity : ℚ
  tfidf_similarity : ℚ
  semantic_similarity : ℚ
  sequence_similarity : ℚ
  jaccard_similarity : ℚ
deriving DecidableEq

/-- The all-zero score record returned on empty input (lines 73-93). -/
def zeroScores : SimScores :=
  { exact_similarity := 0
    tfidf_similarity := 0
    semantic_similarity := 0
    sequence_similarity := 0
    jaccard_similarity := 0 }

/-- Membership of a rational in the unit interval. -/
def inUnit (x : ℚ) : Prop := 0 ≤ x ∧ x ≤ 1

/-- All five metric values lie in the unit interval. -/
def scoresInUnit (s : SimScores) : Prop :=
  inUnit s.exact_similarity ∧ inUnit s.tfidf_similarity ∧
    inUnit s.semantic_similarity ∧ inUnit s.sequence_similarity ∧
    inUnit s.jaccard_similarity

/-- `PlagiarismDetector.preprocess_text` (lines 50-69): empty or
shorter-than-minimum text maps to `""`; otherwise lower-case, collapse
whitespace, strip punctuation, strip digits, tokenize, drop stop words and
tokens of length at most 2, and rejoin. -/
def preprocess_text (ext : Ext) (text : String) : String :=
  if text = "" ∨ (pyStrip text).length < MINIMUM_TEXT_LENGTH then ("")
  else
    let lowered := lowerStr text
    let folded := collapseWs lowered
    let noPunct := stripPunct folded
    let noDigits := stripDigits noPunct
    let words := pySplit noDigits
    let filtered :=
      words.filter (fun w => !ext.stop_words.contains w && decide (2 < w.length))
    " ".intercalate filtered

/-- Fuel-indexed longest-common-subsequence length; the recurrence is
exactly the `dp` table of `lcs_length` (lines 133-144):
`dp[i][j] = dp[i-1][j-1] + 1` on equal heads, else
`max dp[i-1][j] dp[i][j-1]`.  The fuel argument only pays for structural
termination; `lcsLen` supplies enough for the recursion to bottom out. -/
def lcsLenAux : Nat → List String → List String → Nat
  | 0, _, _ => 0
  | _, [], _ => 0
  | _, _ :: _, [] => 0
  | fuel + 1, a :: as, b :: bs =>
    if a = b then lcsLenAux fuel as bs + 1
    else max (lcsLenAux fuel (a :: as) bs) (lcsLenAux fuel as (b :: bs))

/-- Length of a longest common subsequence of two word lists
(`lcs_length`, lines 133-144). -/
def lcsLen (xs ys : List String) : Nat :=
  lcsLenAux (xs.length + ys.length) xs ys

/-- `PlagiarismDetector.calculate_sequence_similarity` (lines 124-149):
LCS length over the word tokens, normalized by the longer word count. -/
def calculate_sequence_similarity (t1 t2 : String) : ℚ :=
  if pySplit t1 = [] ∨ pySplit t2 = [] then 0
  else if 0 < max (pySplit t1).length (pySplit t2).length then
    (lcsLen (pySplit t1) (pySplit t2) : ℚ) /
      ((max (pySplit t1).length (pySplit t2).length : Nat) : ℚ)
  else 0

/-- `PlagiarismDetector.calculate_jaccard_similarity` (lines 151-159):
word-set overlap, `0` when the union is empty. -/
def calculate_jaccard_similarity (t1 t2 : String) : ℚ :=
  if 0 < ((pySplit t1).toFinset ∪ (pySplit t2).toFinset).card then
    (((pySplit t1).toFinset ∩ (pySplit t2).toFinset).card : ℚ) /
      (((pySplit t1).toFinset ∪ (pySplit t2).toFinset).card : ℚ)
  else 0

/-- `PlagiarismDetector.calculate_similarity_scores` (lines 71-122):
all-zero on empty raw input or empty preprocessed text, otherwise the five
metrics; the TF-IDF and semantic cosines fall back to `0.0` on failure. -/
def calculate_similarity_scores (ext : Ext) (text1 text2 : String) : SimScores :=
  if text1 = "" ∨ text2 = "" then zeroScores
  else if preprocess_text ext text1 = "" ∨ preprocess_text ext text2 = "" then
    zeroScores
  else
    { exact_similarity :=
        ext.ratioFn (preprocess_text ext text1) (preprocess_text ext text2)
      tfidf_similarity :=
        (ext.tfidfCosine (preprocess_text ext text1) (preprocess_text ext text2)).getD 0
      semantic_similarity :=
        (ext.semanticCosine (preprocess_text ext text1) (preprocess_text ext text2)).getD 0
      sequence_similarity :=
        calculate_sequence_similarity (preprocess_text ext text1) (preprocess_text ext text2)
      jaccard_similarity :=
        calculate_jaccard_similarity (preprocess_text ext text1) (preprocess_text ext text2) }

/-- `PlagiarismDetector.calculate_composite_score` (lines 189-207):
weighted sum of the five metrics plus the style bonus, capped at `1.0`. -/
def calculate_composite_score (s : SimScores) (writing_style_similarity : ℚ) : ℚ :=
  min (s.exact_similarity * 0.25 + s.tfidf_similarity * 0.25 +
        s.semantic_similarity * 0.30 + s.sequence_similarity * 0.15 +
        s.jaccard_similarity * 0.05 + writing_style_similarity * 0.1) 1

/-- `PlagiarismDetector.determine_plagiarism_level` (lines 209-220); the
`similarity_scores` argument is accepted and ignored, as in the source. -/
def determine_plagiarism_level (composite_score : ℚ) (_scores : SimScores) :
    String × String :=
  if EXACT_MATCH_THRESHOLD ≤ composite_score then
    ("CRITICAL", "Extremely high similarity - Likely exact copy or minimal changes")
  else if HIGH_SIMILARITY_THRESHOLD ≤ composite_score then
    ("HIGH", "High similarity detected - Significant plagiarism suspected")
  else if MODERATE_SIMILARITY_THRESHOLD ≤ composite_score then
    ("MODERATE", "Moderate similarity - Possible plagiarism or common source")
  else if (0.50 : ℚ) ≤ composite_score then
    ("LOW", "Low similarity - May share common concepts or sources")
  else
    ("NONE", "No significant similarity detected")

/-- Writing-style statistics of `analyze_writing_style` (lines 176-187). -/
structure StyleStats where
  avg_sentence_length : ℚ
  flesch_reading_ease : ℚ
  avg_syllables_per_word : ℚ
  sentence_count : ℚ
  word_count : Nat
deriving DecidableEq

/-- `PlagiarismDetector.analyze_writing_style` (lines 176-187): empty
profile (Python `{}`, here `none`) for text shorter than 100 characters. -/
def analyze_writing_style (ext : Ext) (text : String) : Option StyleStats :=
  if text = "" ∨ text.length < 100 then none
  else some
    { avg_sentence_length := ext.avgSentenceLength text
      flesch_reading_ease := ext.fleschReadingEase text
      avg_syllables_per_word := ext.avgSyllablesPerWord text
      sentence_count := ext.sentenceCountFn text
      word_count := (pySplit text).length }

/-- One entry of the `differences` list of `compare_writing_styles`
(lines 283-288): kept only when both values are nonzero. -/
def styleDiff (v1 v2 : ℚ) : Option ℚ :=
  if v1 ≠ 0 ∧ v2 ≠ 0 then some (max 0 (1 - |v1 - v2| / max v1 v2)) else none

/-- `PlagiarismDetector.compare_writing_styles` (lines 274-293): `0` when
either profile is empty, otherwise the mean of the normalized per-metric
closeness values over the three fixed metrics. -/
def compare_writing_styles : Option StyleStats → Option StyleStats → ℚ
  | none, _ => 0
  | some _, none => 0
  | some s1, some s2 =>
    let differences := List.filterMap (fun p : ℚ × ℚ => styleDiff p.1 p.2)
      [(s1.avg_sentence_length, s2.avg_sentence_length),
       (s1.flesch_reading_ease, s2.flesch_reading_ease),
       (s1.avg_syllables_per_word, s2.avg_syllables_per_word)]
    if differences = [] then 0 else differences.sum / (differences.length : ℚ)

/-- `PlagiarismDetector.detect_structural_similarity` (lines 161-174):
`0` when the sentence counts differ, otherwise the mean per-sentence
character ratio of the lower-cased aligned sentences. -/
def detect_structural_similarity (ext : Ext) (t1 t2 : String) : ℚ :=
  let sentences1 := ext.sentTokenize t1
  let sentences2 := ext.sentTokenize t2
  if sentences1.length ≠ sentences2.length then 0
  else
    let sims := (sentences1.zip sentences2).map
      (fun p => ext.ratioFn (lowerStr p.1) (lowerStr p.2))
    if sims = [] then 0 else sims.sum / (sims.length : ℚ)

/-- The n-gram of `words` starting at index `i` with `n` tokens, joined with
single spaces — `' '.join(words[i:i+n])`. -/
def phraseAt (words : List String) (i n : Nat) : String :=
  " ".intercalate ((words.drop i).take n)

/-- The raw match list built by the nested loops of `find_common_phrases`
(lines 302-310): for every n-gram size from `minLen` up to the shorter word
count and every start index in the first text, the phrase is collected when
it occurs anywhere in the second text (the `break` makes each `(n, i)`
contribute at most once). -/
def commonPhraseScan (words1 words2 : List String) (minLen : Nat) : List String :=
  (List.range' minLen (min words1.length words2.length + 1 - minLen)).flatMap
    (fun n =>
      (List.range (words1.length + 1 - n)).filterMap (fun i =>
        if (List.range (words2.length + 1 - n)).any
            (fun j => phraseAt words2 j n = phraseAt words1 i n)
        then some (phraseAt words1 i n) else none))

/-- Descending character length, the order of
`sorted(unique_phrases, key=len, reverse=True)` (line 314). -/
def byLenDesc (a b : String) : Prop := b.length ≤ a.length

instance : DecidableRel byLenDesc := fun a b =>
  inferInstanceAs (Decidable (b.length ≤ a.length))

instance : IsTotal String byLenDesc :=
  ⟨fun a b => (le_total b.length a.length).imp id id⟩

instance : IsTrans String byLenDesc :=
  ⟨fun _ _ _ h1 h2 => le_trans h2 h1⟩

/-- `PlagiarismDetector.find_common_phrases` (lines 295-314): collect the
matches, deduplicate (Python `list(set(...))`, whose ordering is
unspecified; a deterministic dedup is used here), sort by descending
character length and keep the first five. -/
def find_common_phrases (text1 text2 : String) (minLen : Nat) : List String :=
  let words1 := pySplit text1
  let words2 := pySplit text2
  let common_phrases := commonPhraseScan words1 words2 minLen
  (List.insertionSort byLenDesc common_phrases.dedup).take 5

/-- A submission record as the batch job builds it: the metadata keys it
reads with `.get`, the three recognized content keys of
`extract_text_from_submission`, and the remaining dict entries (`extra`)
that the fallback scan of lines 335-337 walks over. -/
structure Submission where
  student_email : Option String
  course : Option String
  title : Option String
  submission_date : Option String
  type : Option String
  answers : Option (List (String × String))
  content : Option String
  text : Option String
  extra : List (String × String)
deriving DecidableEq

/-- A submission with every field absent. -/
def baseSubmission : Submission :=
  { student_email := none
    course := none
    title := none
    submission_date := none
    type := none
    answers := none
    content := none
    text := none
    extra := [] }

/-- `PlagiarismDetector.extract_text_from_submission` (lines 316-346) on
dict submissions: `answers` values joined (falsy values dropped), else the
`content` key, else the `text` key, else the first other string value
longer than 50 characters, else `""`. -/
def extract_text_from_submission (s : Submission) : String :=
  match s.answers with
  | some answers => " ".intercalate (answers.map Prod.snd |>.filter (fun v => v ≠ ""))
  | none =>
    match s.content with
    | some c => c
    | none =>
      match s.text with
      | some t => t
      | none =>
        match (s.extra.map Prod.snd).find? (fun v => decide (50 < v.length)) with
        | some v => v
        | none => ""

/-- Metadata snapshot built by `get_submission_info` (lines 348-367). -/
structure SubmissionInfo where
  student_email : String
  course : String
  title : String
  submission_date : String
  type : String
deriving DecidableEq

/-- `PlagiarismDetector.get_submission_info` (lines 348-367). -/
def get_submission_info (s : Submission) : SubmissionInfo :=
  { student_email := s.student_email.getD ("Unknown")
    course := s.course.getD ("Unknown")
    title := s.title.getD ("Unknown")
    submission_date := s.submission_date.getD ("Unknown")
    type := s.type.getD ("Unknown") }

/-- The dict returned by `compare_submissions` (lines 253-268), with the
percentage fields already rounded to two decimals. -/
structure ComparisonResult where
  submission1_info : SubmissionInfo
  submission2_info : SubmissionInfo
  plagiarism_level : String
  description : String
  composite_score : ℚ
  similarity_scores : SimScores
  structural_similarity : ℚ
  writing_style_similarity : ℚ
  analysis_timestamp : String
  text_lengths : Nat × Nat
  common_phrases : List String
deriving DecidableEq

/-- The `{k: round(v * 100, 2)}` comprehension of line 259. -/
def roundScores (s : SimScores) : SimScores :=
  { exact_similarity := pyRound2 (s.exact_similarity * 100)
    tfidf_similarity := pyRound2 (s.tfidf_similarity * 100)
    semantic_similarity := pyRound2 (s.semantic_similarity * 100)
    sequence_similarity := pyRound2 (s.sequence_similarity * 100)
    jaccard_similarity := pyRound2 (s.jaccard_similarity * 100) }

/-- The result record assembled in the non-null branch of
`compare_submissions` (lines 236-268). -/
def mkComparison (ext : Ext) (s1 s2 : Submission) : ComparisonResult :=
  let text1 := extract_text_from_submission s1
  let text2 := extract_text_from_submission s2
  let similarity_scores := calculate_similarity_scores ext text1 text2
  let writing_style_similarity :=
    compare_writing_styles (analyze_writing_style ext text1)
      (analyze_writing_style ext text2)
  let composite_score := calculate_composite_score similarity_scores
    writing_style_similarity
  let ld := determine_plagiarism_level composite_score similarity_scores
  { submission1_info := get_submission_info s1
    submission2_info := get_submission_info s2
    plagiarism_level := ld.1
    description := ld.2
    composite_score := pyRound2 (composite_score * 100)
    similarity_scores := roundScores similarity_scores
    structural_similarity := pyRound2 (detect_structural_similarity ext text1 text2 * 100)
    writing_style_similarity := pyRound2 (writing_style_similarity * 100)
    analysis_timestamp := ext.nowIso
    text_lengths := (text1.length, text2.length)
    common_phrases := find_common_phrases text1 text2 5 }

/-- `PlagiarismDetector.compare_submissions` (lines 222-272): `None` when
either extracted text is empty (line 229) or shorter than
`MINIMUM_TEXT_LENGTH` raw characters (line 233), otherwise the populated
result record. -/
def compare_submissions (ext : Ext) (s1 s2 : Submission) : Option ComparisonResult :=
  if extract_text_from_submission s1 = "" ∨ extract_text_from_submission s2 = ""
  then none
  else if (extract_text_from_submission s1).length < MINIMUM_TEXT_LENGTH ∨
      (extract_text_from_submission s2).length < MINIMUM_TEXT_LENGTH
  then none
  else some (mkComparison ext s1 s2)

/-- The severity levels the batch job retains (line 481). -/
def retainedLevels : List String := ["CRITICAL", "HIGH", "MODERATE"]

/-- The body of the double loop of `run_plagiarism_detection_batch`
(lines 469-484) for one pair: skip same-student pairs (the `.get` values
are compared, so two missing emails also compare equal), then keep the
comparison only when it is non-null and its level is retained. -/
def pairStep (ext : Ext) (a b : Submission) : Option ComparisonResult :=
  if a.student_email = b.student_email then none
  else
    match compare_submissions ext a b with
    | none => none
    | some r => if r.plagiarism_level ∈ retainedLevels then some r else none

/-- `run_plagiarism_detection_batch` (lines 453-487) over an already
collected submission list, returning the result list and the list of
records handed to `save_plagiarism_result`, in loop order. -/
def runBatchFull (ext : Ext) : List Submission → List ComparisonResult × List ComparisonResult
  | [] => ([], [])
  | s :: rest =>
    (rest.filterMap (pairStep ext s) ++ (runBatchFull ext rest).1,
     rest.filterMap (pairStep ext s) ++ (runBatchFull ext rest).2)

/-- All unordered pairs of list elements in the `(i, j), i < j` loop order of
lines 469-470: each element paired with every later element, exactly once. -/
def subPairs : List Submission → List (Submission × Submission)
  | [] => []
  | s :: rest => rest.map (fun t => (s, t)) ++ subPairs rest

/-- A result-store file system: each record file name maps to the parsed
record it holds.  `PlagiarismDatabase` keeps one JSON file per result. -/
def FileStore : Type := String → Option ComparisonResult

/-- The store with no record files. -/
def emptyStore : FileStore := fun _ => none

/-- Writing a file: `open(filepath, 'w')` replaces the content stored under
an existing name and creates the file otherwise. -/
def writeRecord (store : FileStore) (nm : String) (r : ComparisonResult) : FileStore :=
  fun n => if n = nm then some r else store n

/-- The file name `f"plagiarism_result_{timestamp}.json"` of line 380,
where `timestamp` is `datetime.now().strftime("%Y%m%d_%H%M%S")` — one
string per wall-clock second. -/
def plagiarismFileName (ts : String) : String :=
  "plagiarism_result_" ++ ts ++ ".json"

/-- `PlagiarismDatabase.save_plagiarism_result` (lines 376-389) invoked at
wall-clock second `ts`. -/
def save_plagiarism_result (ts : String) (result : ComparisonResult)
    (store : FileStore) : FileStore :=
  writeRecord store (plagiarismFileName ts) result

/-- Python truthiness of an optional-string filter argument: absent or the
empty string count as false. -/
def optTruthy : Option String → Bool
  | none => false
  | some s => s ≠ ""

/-- The filter applied per record in `get_plagiarism_results`
(lines 403-408): a truthy `course` must match `submission1_info.course`,
a truthy `level` must match `plagiarism_level`. -/
def keepRecord (course level : Option String) (r : ComparisonResult) : Bool :=
  !(optTruthy course && decide (r.submission1_info.course ≠ course.getD (""))) &&
    !(optTruthy level && decide (r.plagiarism_level ≠ level.getD ("")))

/-- Descending composite score, the order of
`results.sort(key=..., reverse=True)` (line 415). -/
def byCompositeDesc (a b : ComparisonResult) : Prop :=
  b.composite_score ≤ a.composite_score

instance : DecidableRel byCompositeDesc := fun a b =>
  inferInstanceAs (Decidable (b.composite_score ≤ a.composite_score))

instance : IsTotal ComparisonResult byCompositeDesc :=
  ⟨fun a b => (le_total b.composite_score a.composite_score).imp id id⟩

instance : IsTrans ComparisonResult byCompositeDesc :=
  ⟨fun _ _ _ h1 h2 => le_trans h2 h1⟩

/-- The parse-and-filter stage of `get_plagiarism_results` (lines 396-412)
over the parse outcomes of the stored files: `none` entries are the
individually corrupt files whose `json.load` raises and which the inner
`except: continue` skips; the surviving records are filtered. -/
def queryFiltered (store : List (Option ComparisonResult))
    (course level : Option String) : List ComparisonResult :=
  (store.filterMap id).filter (keepRecord course level)

/-- The record list after the sort of line 415, before truncation. -/
def querySorted (store : List (Option ComparisonResult))
    (course level : Option String) : List ComparisonResult :=
  List.insertionSort byCompositeDesc (queryFiltered store course level)

/-- `PlagiarismDatabase.get_plagiarism_results` (lines 391-424): parse,
filter, sort by descending composite score, and truncate only when `limit`
is truthy (Python `if limit:`, so `limit = 0` means no truncation). -/
def get_plagiarism_results (store : List (Option ComparisonResult))
    (course level : Option String) (limit : Option Nat) : List ComparisonResult :=
  match limit with
  | none => querySorted store course level
  | some l =>
    if l = 0 then querySorted store course level
    else (querySorted store course level).take l

/-! ## Concrete instances used by witnesses and counterexamples -/

/-- A concrete dependency record with constant, symmetric, unit-interval
external metric functions. -/
def extW : Ext :=
  { stop_words := []
    ratioFn := fun _ _ => 1
    tfidfCosine := fun _ _ => some 1
    semanticCosine := fun _ _ => some 1
    sentTokenize := fun s => [s]
    avgSentenceLength := fun _ => 0
    fleschReadingEase := fun _ => 0
    avgSyllablesPerWord := fun _ => 0
    sentenceCountFn := fun _ => 0
    nowIso := "" }

/-- Sixty digit characters: a raw text that passes the 50-character minimum
of `compare_submissions` while normalizing to the empty string (digits are
stripped by `preprocess_text`). -/
def digits60 : String :=
  "111111111111111111111111111111111111111111111111111111111111"

/-- A submission whose only content is `digits60`. -/
def sDigits : Submission := { baseSubmission with content := some digits60 }

/-- A 59-character all-letter text whose words all survive preprocessing. -/
def alphaText : String :=
  "alpha beta gamma delta epsilon zeta theta iota kappa lambda"

/-- A submission by one student holding `alphaText`. -/
def sA : Submission :=
  { baseSubmission with
    student_email := some ("a@example.com")
    content := some alphaText }

/-- A submission by a second student holding the same text. -/
def sB : Submission :=
  { baseSubmission with
    student_email := some ("b@example.com")
    content := some alphaText }

/-- A submission lacking any student identifier. -/
def sN1 : Submission := { baseSubmission with content := some alphaText }

/-- Another submission lacking any student identifier, same text. -/
def sN2 : Submission :=
  { baseSubmission with
    content := some alphaText
    title := some ("copy") }

/-- First text of the phrase-ordering counterexample: a run of six short
words, a separator, then a run of five long words. -/
def phraseTextA : String :=
  "a b c d e f x ppppppppppp qqqqqqqqqqq rrrrrrrrrrr sssssssssss ttttttttttt"

/-- Second text of the phrase-ordering counterexample: the same two runs in
the opposite order with a different separator, so the only common n-grams
are the two runs and their sub-n-grams. -/
def phraseTextB : String :=
  "ppppppppppp qqqqqqqqqqq rrrrrrrrrrr sssssssssss ttttttttttt y a b c d e f"

/-- A minimal comparison record with a prescribed composite score. -/
def mkSimpleResult (c : ℚ) : ComparisonResult :=
  { submission1_info := get_submission_info baseSubmission
    submission2_info := get_submission_info baseSubmission
    plagiarism_level := "NONE"
    description := ""
    composite_score := c
    similarity_scores := zeroScores
    structural_similarity := 0
    writing_style_similarity := 0
    analysis_timestamp := ""
    text_lengths := (0, 0)
    common_phrases := [] }

/-- A stored-file list with one corrupt entry between two good records. -/
def storeW : List (Option ComparisonResult) :=
  [some (mkSimpleResult 1), none, some (mkSimpleResult 2)]

/-! ## Helper lemmas -/

/-- For any fuel, the LCS value is no larger than the first list's length. -/
theorem lcsLenAux_le_left :
    ∀ (fuel : Nat) (xs ys : List String), lcsLenAux fuel xs ys ≤ xs.length := by
  intro fuel
  induction fuel with
  | zero => intro xs ys; cases xs <;> cases ys <;> simp [lcsLenAux]
  | succ n ih =>
    intro xs ys
    cases xs with
    | nil => simp [lcsLenAux]
    | cons a as =>
      cases ys with
      | nil => simp [lcsLenAux]
      | cons b bs =>
        rw [lcsLenAux]
        by_cases hab : a = b
        · rw [if_pos hab]
          have h1 := ih as bs
          simp
          omega
        · rw [if_neg hab]
          exact max_le (ih (a :: as) bs) (le_trans (ih as (b :: bs)) (by simp))

/-- An LCS is no longer than the first word list. -/
theorem lcsLen_le_left (xs ys : List String) : lcsLen xs ys ≤ xs.length :=
  lcsLenAux_le_left (xs.length + ys.length) xs ys

/-- For any fuel, the LCS value is symmetric in the two lists. -/
theorem lcsLenAux_comm :
    ∀ (fuel : Nat) (xs ys : List String),
      lcsLenAux fuel xs ys = lcsLenAux fuel ys xs := by
  intro fuel
  induction fuel with
  | zero => intro xs ys; cases xs <;> cases ys <;> rfl
  | succ n ih =>
    intro xs ys
    cases xs with
    | nil => cases ys <;> simp [lcsLenAux]
    | cons a as =>
      cases ys with
      | nil => simp [lcsLenAux]
      | cons b bs =>
        rw [lcsLenAux, lcsLenAux]
        by_cases hab : a = b
        · rw [if_pos hab, if_pos hab.symm, ih as bs]
        · rw [if_neg hab, if_neg (fun hba => hab hba.symm),
            ih (a :: as) bs, ih as (b :: bs), Nat.max_comm]

/-- `lcsLen` is symmetric. -/
theorem lcsLen_comm (xs ys : List String) : lcsLen xs ys = lcsLen ys xs := by
  unfold lcsLen
  rw [Nat.add_comm ys.length xs.length, lcsLenAux_comm]

/-- The word-sequence LCS ratio lies in the unit interval. -/
theorem sequence_similarity_unit (t1 t2 : String) :
    inUnit (calculate_sequence_similarity t1 t2) := by
  unfold calculate_sequence_similarity
  split_ifs with h1 h2
  · exact ⟨le_rfl, by norm_num⟩
  · constructor
    · positivity
    · rw [div_le_one (by exact_mod_cast h2)]
      have hle : lcsLen (pySplit t1) (pySplit t2) ≤
          max (pySplit t1).length (pySplit t2).length :=
        le_trans (lcsLen_le_left _ _) (le_max_left _ _)
      exact_mod_cast hle
  · exact ⟨le_rfl, by norm_num⟩

/-- `calculate_sequence_similarity` is symmetric. -/
theorem sequence_similarity_comm (t1 t2 : String) :
    calculate_sequence_similarity t1 t2 = calculate_sequence_similarity t2 t1 := by
  unfold calculate_sequence_similarity
  by_cases h1 : pySplit t1 = [] <;> by_cases h2 : pySplit t2 = [] <;>
    simp [h1, h2, lcsLen_comm (pySplit t1), Nat.max_comm (pySplit t1).length]

/-- The Jaccard coefficient lies in the unit interval. -/
theorem jaccard_similarity_unit (t1 t2 : String) :
    inUnit (calculate_jaccard_similarity t1 t2) := by
  unfold calculate_jaccard_similarity
  split_ifs with h
  · constructor
    · positivity
    · rw [div_le_one (by exact_mod_cast h)]
      exact_mod_cast Finset.card_le_card Finset.inter_subset_union
  · exact ⟨le_rfl, by norm_num⟩

/-- `calculate_jaccard_similarity` is symmetric. -/
theorem jaccard_similarity_comm (t1 t2 : String) :
    calculate_jaccard_similarity t1 t2 = calculate_jaccard_similarity t2 t1 := by
  unfold calculate_jaccard_similarity
  rw [Finset.inter_comm, Finset.union_comm]

/-- The all-zero score record lies in the unit interval componentwise. -/
theorem zeroScores_unit : scoresInUnit zeroScores := by
  refine ⟨⟨le_rfl, ?_⟩, ⟨le_rfl, ?_⟩, ⟨le_rfl, ?_⟩, ⟨le_rfl, ?_⟩, ⟨le_rfl, ?_⟩⟩ <;>
    norm_num [zeroScores]

/-- Capping at one moves two values closer together, never farther apart. -/
theorem abs_min_one_sub (a b : ℚ) : |min a 1 - min b 1| ≤ |a - b| := by
  rcases le_total a 1 with ha | ha <;> rcases le_total b 1 with hb | hb
  · rw [min_eq_left ha, min_eq_left hb]
  · rw [min_eq_left ha, min_eq_right hb, abs_of_nonpos (by linarith)]
    have h1 : a - b ≤ 0 := by linarith
    rw [abs_of_nonpos h1]
    linarith
  · rw [min_eq_right ha, min_eq_left hb, abs_of_nonneg (by linarith),
      abs_of_nonneg (by linarith)]
    linarith
  · rw [min_eq_right ha, min_eq_right hb]
    simp [abs_nonneg]

/-! ## Claims -/

/-- Claim C1: for every pair of input texts (and any behaviour of the
injected external metric functions within their documented ranges),
`calculate_similarity_scores` returns five values each in the unit
interval, and whenever either raw input is empty or either text
preprocesses to the empty string, all five values are exactly zero (the
function is total, so no exception escapes). -/
theorem similarity_scores_unit_and_zero_on_empty (ext : Ext)
    (hr : ∀ a b, inUnit (ext.ratioFn a b))
    (ht : ∀ a b q, ext.tfidfCosine a b = some q → inUnit q)
    (hs : ∀ a b q, ext.semanticCosine a b = some q → inUnit q)
    (t1 t2 : String) :
    scoresInUnit (calculate_similarity_scores ext t1 t2) ∧
      ((t1 = "" ∨ t2 = "" ∨ preprocess_text ext t1 = "" ∨
          preprocess_text ext t2 = "") →
        calculate_similarity_scores ext t1 t2 = zeroScores) := by
  unfold calculate_similarity_scores
  split_ifs with h1 h2
  · exact ⟨zeroScores_unit, fun _ => rfl⟩
  · exact ⟨zeroScores_unit, fun _ => rfl⟩
  · constructor
    · refine ⟨hr _ _, ?_, ?_, sequence_similarity_unit _ _,
        jaccard_similarity_unit _ _⟩
      · rcases hcase : ext.tfidfCosine (preprocess_text ext t1)
            (preprocess_text ext t2) with _ | q
        · simp [Option.getD]
          exact ⟨le_rfl, by norm_num⟩
        · simpa using ht _ _ q hcase
      · rcases hcase : ext.semanticCosine (preprocess_text ext t1)
            (preprocess_text ext t2) with _ | q
        · simp [Option.getD]
          exact ⟨le_rfl, by norm_num⟩
        · simpa using hs _ _ q hcase
    · intro hd
      exact absurd hd (by tauto)

theorem similarity_scores_unit_and_zero_on_empty_witness :
    scoresInUnit (calculate_similarity_scores extW ("") ("abc")) ∧
      calculate_similarity_scores extW ("") ("abc") = zeroScores := by
  have h := similarity_scores_unit_and_zero_on_empty extW
    (fun a b => by norm_num [extW, inUnit])
    (fun a b q hq => by simp [extW] at hq; simp [← hq, inUnit])
    (fun a b q hq => by simp [extW] at hq; simp [← hq, inUnit])
    "" "abc"
  exact ⟨h.1, h.2 (Or.inl rfl)⟩

/-- Claim C2: on the unit interval the classifier returns CRITICAL exactly
at composite at least 0.95, HIGH on [0.85, 0.95), MODERATE on [0.70, 0.85),
LOW on [0.50, 0.70) and NONE below 0.50, and its output depends only on the
composite score, not on the individual similarity scores. -/
theorem determine_level_thresholds (c : ℚ) (h0 : 0 ≤ c) (h1 : c ≤ 1)
    (s s' : SimScores) :
    ((determine_plagiarism_level c s).1 = "CRITICAL" ↔ 0.95 ≤ c) ∧
    ((determine_plagiarism_level c s).1 = "HIGH" ↔ 0.85 ≤ c ∧ c < 0.95) ∧
    ((determine_plagiarism_level c s).1 = "MODERATE" ↔ 0.70 ≤ c ∧ c < 0.85) ∧
    ((determine_plagiarism_level c s).1 = "LOW" ↔ 0.50 ≤ c ∧ c < 0.70) ∧
    ((determine_plagiarism_level c s).1 = "NONE" ↔ c < 0.50) ∧
    determine_plagiarism_level c s = determine_plagiarism_level c s' := by
  unfold determine_plagiarism_level EXACT_MATCH_THRESHOLD
    HIGH_SIMILARITY_THRESHOLD MODERATE_SIMILARITY_THRESHOLD
  split_ifs with hA hB hC hD <;> refine ⟨?_, ?_, ?_, ?_, ?_, rfl⟩ <;>
    constructor <;> intro h <;>
      first
        | rfl
        | exact absurd h (by decide)
        | linarith
        | exact ⟨by linarith, by linarith⟩

theorem determine_level_thresholds_witness :
    (determine_plagiarism_level 0.97 zeroScores).1 = "CRITICAL" :=
  (determine_level_thresholds 0.97 (by norm_num) (by norm_num)
    zeroScores zeroScores).1.mpr (by norm_num)

/-- Claim C3: the composite score is the capped weighted sum
`min(1, 0.25 exact + 0.25 tfidf + 0.30 semantic + 0.15 sequence +
0.05 jaccard + 0.10 style)`; it stays in the unit interval for unit-interval
inputs, and changing only the style input moves it by at most 0.10. -/
theorem composite_formula_bounds (s : SimScores) (st st' : ℚ) :
    calculate_composite_score s st =
      min 1 (0.25 * s.exact_similarity + 0.25 * s.tfidf_similarity +
        0.30 * s.semantic_similarity + 0.15 * s.sequence_similarity +
        0.05 * s.jaccard_similarity + 0.10 * st) ∧
    (scoresInUnit s → inUnit st → inUnit (calculate_composite_score s st)) ∧
    (inUnit st → inUnit st' →
      |calculate_composite_score s st - calculate_composite_score s st'| ≤ 0.10) := by
  refine ⟨?_, ?_, ?_⟩
  · unfold calculate_composite_score
    rw [min_comm]
    congr 1
    ring
  · rintro ⟨⟨he0, he1⟩, ⟨ht0, ht1⟩, ⟨hm0, hm1⟩, ⟨hq0, hq1⟩, ⟨hj0, hj1⟩⟩ ⟨hs0, hs1⟩
    unfold calculate_composite_score
    constructor
    · exact le_min (by linarith) (by norm_num)
    · exact min_le_right _ _
  · rintro ⟨hs0, hs1⟩ ⟨hs0', hs1'⟩
    unfold calculate_composite_score
    refine le_trans (abs_min_one_sub _ _) ?_
    have hrw : s.exact_similarity * 0.25 + s.tfidf_similarity * 0.25 +
        s.semantic_similarity * 0.30 + s.sequence_similarity * 0.15 +
        s.jaccard_similarity * 0.05 + st * 0.1 -
        (s.exact_similarity * 0.25 + s.tfidf_similarity * 0.25 +
          s.semantic_similarity * 0.30 + s.sequence_similarity * 0.15 +
          s.jaccard_similarity * 0.05 + st' * 0.1) = (st - st') * 0.1 := by
      ring
    rw [hrw, abs_mul, abs_of_nonneg (by norm_num : (0 : ℚ) ≤ 0.1)]
    have habs : |st - st'| ≤ 1 := abs_le.mpr ⟨by linarith, by linarith⟩
    linarith

theorem composite_formula_bounds_witness :
    inUnit (calculate_composite_score zeroScores 1) ∧
      |calculate_composite_score zeroScores 1 -
        calculate_composite_score zeroScores 0| ≤ 0.10 :=
  ⟨(composite_formula_bounds zeroScores 1 0).2.1 zeroScores_unit
      ⟨by norm_num, by norm_num⟩,
    (composite_formula_bounds zeroScores 1 0).2.2
      ⟨by norm_num, by norm_num⟩ ⟨by norm_num, by norm_num⟩⟩

/-- Counterexample to claim C4 as stated: a pair of submissions whose raw
texts are 60 digit characters (so ≥ the 50-character minimum) normalizes to
the empty string, yet `compare_submissions` returns a populated result
rather than `None` — the null check inspects the extracted raw text, not
the normalized text. -/
theorem compare_nonnull_on_empty_normalized :
    preprocess_text extW (extract_text_from_submission sDigits) = "" ∧
      (compare_submissions extW sDigits sDigits).isSome = true := by
  constructor
  · decide
  · decide

/-- Claim C4 (amended): `compare_submissions` returns `None` — as a value,
not an exception — exactly when either submission's extracted raw text is
empty or shorter than the 50-character minimum; every other pair gets the
populated result record (even when a text normalizes to the empty string).
-/
theorem compare_null_iff_raw_short (ext : Ext) (s1 s2 : Submission) :
    (compare_submissions ext s1 s2 = none ↔
      extract_text_from_submission s1 = "" ∨
      extract_text_from_submission s2 = "" ∨
      (extract_text_from_submission s1).length < MINIMUM_TEXT_LENGTH ∨
      (extract_text_from_submission s2).length < MINIMUM_TEXT_LENGTH) ∧
    (¬(extract_text_from_submission s1 = "" ∨
        extract_text_from_submission s2 = "" ∨
        (extract_text_from_submission s1).length < MINIMUM_TEXT_LENGTH ∨
        (extract_text_from_submission s2).length < MINIMUM_TEXT_LENGTH) →
      compare_submissions ext s1 s2 = some (mkComparison ext s1 s2)) := by
  unfold compare_submissions
  split_ifs with h1 h2
  · refine ⟨⟨fun _ => ?_, fun _ => rfl⟩, fun hn => absurd ?_ hn⟩
    · exact h1.elim Or.inl (fun h => Or.inr (Or.inl h))
    · exact h1.elim Or.inl (fun h => Or.inr (Or.inl h))
  · refine ⟨⟨fun _ => ?_, fun _ => rfl⟩, fun hn => absurd ?_ hn⟩
    · exact h2.elim (fun h => Or.inr (Or.inr (Or.inl h)))
        (fun h => Or.inr (Or.inr (Or.inr h)))
    · exact h2.elim (fun h => Or.inr (Or.inr (Or.inl h)))
        (fun h => Or.inr (Or.inr (Or.inr h)))
  · refine ⟨⟨fun hsome => absurd hsome (by simp), fun hd => ?_⟩, fun _ => rfl⟩
    exact absurd hd (by tauto)

theorem compare_null_iff_raw_short_witness :
    compare_submissions extW baseSubmission baseSubmission = none :=
  (compare_null_iff_raw_short extW baseSubmission baseSubmission).1.mpr
    (Or.inl (by decide))

/-- Counterexample to claim C7 as stated: on `phraseTextA`/`phraseTextB`
the returned phrase list starts with a 5-word phrase followed by a 6-word
phrase, so it is not ordered longest-first by word count (the source sorts
by character length, `key=len`). -/
theorem common_phrases_not_by_word_count :
    ((find_common_phrases phraseTextA phraseTextB 5).map
      (fun p => (pySplit p).length)).take 2 = [5, 6] := by
  decide

/-- Claim C7 (amended): for every two input texts the common-phrase
extraction scans word n-grams for n from 5 up to the shorter text's word
count, collects the exact matches, deduplicates them, and returns at most 5
phrases ordered longest-first by character length. -/
theorem find_common_phrases_spec (t1 t2 : String) :
    (find_common_phrases t1 t2 5).length ≤ 5 ∧
    List.Sorted byLenDesc (find_common_phrases t1 t2 5) ∧
    (find_common_phrases t1 t2 5).Nodup ∧
    (∀ p ∈ find_common_phrases t1 t2 5,
      p ∈ commonPhraseScan (pySplit t1) (pySplit t2) 5) ∧
    (∀ p, p ∈ commonPhraseScan (pySplit t1) (pySplit t2) 5 ↔
      ∃ n i j, 5 ≤ n ∧ n ≤ min (pySplit t1).length (pySplit t2).length ∧
        i + n ≤ (pySplit t1).length ∧ j + n ≤ (pySplit t2).length ∧
        phraseAt (pySplit t1) i n = p ∧ phraseAt (pySplit t2) j n = p) := by
  refine ⟨?_, ?_, ?_, ?_, ?_⟩
  · simp [find_common_phrases]
  · exact (List.sorted_insertionSort byLenDesc _).sublist
      (List.take_sublist _ _)
  · exact (((List.perm_insertionSort byLenDesc _).nodup_iff).mpr
      (List.nodup_dedup _)).sublist (List.take_sublist _ _)
  · intro p hp
    have h1 : p ∈ List.insertionSort byLenDesc
        (commonPhraseScan (pySplit t1) (pySplit t2) 5).dedup :=
      (List.take_sublist _ _).subset hp
    rw [List.mem_insertionSort, List.mem_dedup] at h1
    exact h1
  · intro p
    constructor
    · intro hp
      rw [commonPhraseScan, List.mem_flatMap] at hp
      obtain ⟨n, hn, hp⟩ := hp
      rw [List.mem_range'_1] at hn
      rw [List.mem_filterMap] at hp
      obtain ⟨i, hi, hstep⟩ := hp
      rw [List.mem_range] at hi
      split_ifs at hstep with hj
      · obtain ⟨a, ha, hja⟩ := List.any_eq_true.mp hj
        rw [List.mem_range] at ha
        refine ⟨n, i, a, hn.1, by omega, by omega, by omega,
          Option.some.inj hstep, ?_⟩
        rw [of_decide_eq_true hja, Option.some.inj hstep]
    · rintro ⟨n, i, j, h5, hmin, hi, hj, hp1, hp2⟩
      rw [commonPhraseScan, List.mem_flatMap]
      refine ⟨n, ?_, ?_⟩
      · rw [List.mem_range'_1]
        omega
      · rw [List.mem_filterMap]
        refine ⟨i, by rw [List.mem_range]; omega, ?_⟩
        have hj' : (List.range ((pySplit t2).length + 1 - n)).any
            (fun j => decide (phraseAt (pySplit t2) j n = phraseAt (pySplit t1) i n)) = true := by
          refine List.any_eq_true.mpr ⟨j, ?_, ?_⟩
          · rw [List.mem_range]; omega
          · rw [decide_eq_true_eq, hp1, hp2]
        rw [if_pos]
        · rw [hp1]
        · exact hj'

theorem find_common_phrases_spec_witness :
    ("a b c d e" : String) ∈
      commonPhraseScan (pySplit phraseTextA) (pySplit phraseTextB) 5 :=
  (find_common_phrases_spec phraseTextA phraseTextB).2.2.2.1
    "a b c d e" (by decide)

/-- A single style-difference entry is symmetric in its two values. -/
theorem styleDiff_comm (v1 v2 : ℚ) : styleDiff v1 v2 = styleDiff v2 v1 := by
  unfold styleDiff
  by_cases h1 : v1 = 0 <;> by_cases h2 : v2 = 0 <;>
    simp [h1, h2, abs_sub_comm, max_comm]

/-- `compare_writing_styles` is symmetric in the two profiles. -/
theorem compare_writing_styles_comm (o1 o2 : Option StyleStats) :
    compare_writing_styles o1 o2 = compare_writing_styles o2 o1 := by
  cases o1 with
  | none => cases o2 <;> simp [compare_writing_styles]
  | some s1 =>
    cases o2 with
    | none => simp [compare_writing_styles]
    | some s2 =>
      simp only [compare_writing_styles, List.filterMap_cons, List.filterMap_nil,
        styleDiff_comm s1.avg_sentence_length s2.avg_sentence_length,
        styleDiff_comm s1.flesch_reading_ease s2.flesch_reading_ease,
        styleDiff_comm s1.avg_syllables_per_word s2.avg_syllables_per_word]

/-- Given symmetric external metric functions, the five-metric score record
is a symmetric function of the two texts. -/
theorem calculate_similarity_scores_comm (ext : Ext)
    (hr : ∀ a b, ext.ratioFn a b = ext.ratioFn b a)
    (ht : ∀ a b, ext.tfidfCosine a b = ext.tfidfCosine b a)
    (hs : ∀ a b, ext.semanticCosine a b = ext.semanticCosine b a)
    (t1 t2 : String) :
    calculate_similarity_scores ext t1 t2 = calculate_similarity_scores ext t2 t1 := by
  unfold calculate_similarity_scores
  by_cases h1 : t1 = "" <;> by_cases h2 : t2 = "" <;>
    by_cases h3 : preprocess_text ext t1 = "" <;>
    by_cases h4 : preprocess_text ext t2 = "" <;>
    simp [h1, h2, h3, h4, hr (preprocess_text ext t1),
      ht (preprocess_text ext t1), hs (preprocess_text ext t1),
      sequence_similarity_comm (preprocess_text ext t1),
      jaccard_similarity_comm (preprocess_text ext t1)]

/-- Claim C6: when the external per-pair metric functions are symmetric
(as character-ratio and the two cosines are), `compare_submissions` yields
the same composite score for `(a, b)` and `(b, a)` — in particular both
directions are null together. -/
theorem compare_composite_symm (ext : Ext)
    (hr : ∀ a b, ext.ratioFn a b = ext.ratioFn b a)
    (ht : ∀ a b, ext.tfidfCosine a b = ext.tfidfCosine b a)
    (hs : ∀ a b, ext.semanticCosine a b = ext.semanticCosine b a)
    (s1 s2 : Submission) :
    (compare_submissions ext s1 s2).map ComparisonResult.composite_score =
      (compare_submissions ext s2 s1).map ComparisonResult.composite_score := by
  unfold compare_submissions
  by_cases h1 : extract_text_from_submission s1 = "" <;>
    by_cases h2 : extract_text_from_submission s2 = "" <;>
    by_cases h3 : (extract_text_from_submission s1).length < MINIMUM_TEXT_LENGTH <;>
    by_cases h4 : (extract_text_from_submission s2).length < MINIMUM_TEXT_LENGTH <;>
    simp [h1, h2, h3, h4]
  all_goals
    simp only [mkComparison]
    rw [calculate_similarity_scores_comm ext hr ht hs,
      compare_writing_styles_comm]

theorem compare_composite_symm_witness :
    (compare_submissions extW sA sB).map ComparisonResult.composite_score =
      (compare_submissions extW sB sA).map ComparisonResult.composite_score :=
  compare_composite_symm extW (fun _ _ => rfl) (fun _ _ => rfl)
    (fun _ _ => rfl) sA sB

/-- The records handed to the store are exactly the records returned. -/
theorem runBatchFull_saved_eq_results (ext : Ext) (subs : List Submission) :
    (runBatchFull ext subs).2 = (runBatchFull ext subs).1 := by
  induction subs with
  | nil => rfl
  | cons s rest ih => simp [runBatchFull, ih]

/-- The nested loop equals one pass of `pairStep` over the unordered-pair
list. -/
theorem runBatchFull_eq_filterMap (ext : Ext) (subs : List Submission) :
    (runBatchFull ext subs).1 =
      (subPairs subs).filterMap (fun p => pairStep ext p.1 p.2) := by
  induction subs with
  | nil => rfl
  | cons s rest ih =>
    simp only [runBatchFull, subPairs, List.filterMap_append,
      List.filterMap_map, ih]
    rfl

/-- `subPairs` enumerates exactly `n.choose 2` pairs for `n` submissions:
each unordered pair of positions appears exactly once. -/
theorem subPairs_length (subs : List Submission) :
    (subPairs subs).length = Nat.choose subs.length 2 := by
  induction subs with
  | nil => rfl
  | cons s rest ih =>
    simp [subPairs, ih, Nat.choose_succ_succ, Nat.choose_one_right]

/-- Claim C5: on any submission corpus the batch runner persists exactly
what it returns, processes each unordered pair exactly once (the pair list
has length `n.choose 2` and the output is one `filterMap` over it), and
every retained result comes from a pair with differing student identifiers
and has severity MODERATE, HIGH or CRITICAL. -/
theorem batch_pairs_once_same_student_skipped_retention (ext : Ext)
    (subs : List Submission) :
    (runBatchFull ext subs).2 = (runBatchFull ext subs).1 ∧
    (runBatchFull ext subs).1 =
      (subPairs subs).filterMap (fun p => pairStep ext p.1 p.2) ∧
    (subPairs subs).length = Nat.choose subs.length 2 ∧
    (∀ r ∈ (runBatchFull ext subs).1,
      r.plagiarism_level ∈ retainedLevels ∧
      ∃ p ∈ subPairs subs, p.1.student_email ≠ p.2.student_email ∧
        compare_submissions ext p.1 p.2 = some r) := by
  refine ⟨runBatchFull_saved_eq_results ext subs,
    runBatchFull_eq_filterMap ext subs, subPairs_length subs, ?_⟩
  intro r hr
  rw [runBatchFull_eq_filterMap] at hr
  obtain ⟨p, hp, hstep⟩ := List.mem_filterMap.mp hr
  unfold pairStep at hstep
  by_cases heq : p.1.student_email = p.2.student_email
  · rw [if_pos heq] at hstep
    exact absurd hstep (by simp)
  · rw [if_neg heq] at hstep
    cases hcmp : compare_submissions ext p.1 p.2 with
    | none =>
      rw [hcmp] at hstep
      exact absurd hstep (by simp)
    | some r' =>
      rw [hcmp] at hstep
      simp only [] at hstep
      split_ifs at hstep with hlev
      obtain rfl : r' = r := Option.some.inj hstep
      exact ⟨hlev, p, hp, heq, hcmp⟩

set_option maxRecDepth 80000 in
unseal Rat.mul Rat.inv Rat.add Rat.sub Rat.ofScientific in
theorem batch_pairs_once_same_student_skipped_retention_witness :
    (((runBatchFull extW [sA, sB]).1.headD
      (mkComparison extW sA sB)).plagiarism_level) ∈ retainedLevels := by
  have h := batch_pairs_once_same_student_skipped_retention extW [sA, sB]
  exact (h.2.2.2 _ (by decide)).1

/-- Claim C10: a pair of submissions that both lack a student identifier is
treated as a same-student pair by the batch runner (both `.get` lookups
return `None`), so no comparison result is produced or stored for it. -/
theorem batch_skips_pair_with_missing_emails (ext : Ext) (s1 s2 : Submission)
    (h1 : s1.student_email = none) (h2 : s2.student_email = none) :
    runBatchFull ext [s1, s2] = ([], []) := by
  simp [runBatchFull, pairStep, h1, h2]

theorem batch_skips_pair_with_missing_emails_witness :
    (compare_submissions extW sN1 sN2).isSome = true ∧
      runBatchFull extW [sN1, sN2] = ([], []) :=
  ⟨by decide, batch_skips_pair_with_missing_emails extW sN1 sN2 rfl rfl⟩

/-- The record file name determines the timestamp string. -/
theorem plagiarismFileName_inj (ts1 ts2 : String)
    (h : plagiarismFileName ts1 = plagiarismFileName ts2) : ts1 = ts2 := by
  unfold plagiarismFileName at h
  have hd : "plagiarism_result_".data ++ (ts1.data ++ ".json".data) =
      "plagiarism_result_".data ++ (ts2.data ++ ".json".data) := by
    have h1 := congrArg String.data h
    simpa [String.data_append, List.append_assoc] using h1
  have h2 := List.append_cancel_left hd
  have h3 := List.append_cancel_right h2
  cases ts1
  cases ts2
  exact congrArg String.mk h3

/-- Counterexample to claim C8 as stated: two back-to-back saves falling in
the same wall-clock second produce the same file name, so the second save
overwrites the first — a previously stored result does not remain
unchanged. -/
theorem save_same_second_overwrites :
    save_plagiarism_result ("20250101_000000") (mkSimpleResult 1) emptyStore
        (plagiarismFileName ("20250101_000000")) = some (mkSimpleResult 1) ∧
    save_plagiarism_result ("20250101_000000") (mkSimpleResult 2)
        (save_plagiarism_result ("20250101_000000") (mkSimpleResult 1) emptyStore)
        (plagiarismFileName ("20250101_000000")) = some (mkSimpleResult 2) ∧
    mkSimpleResult 1 ≠ mkSimpleResult 2 := by
  refine ⟨?_, ?_, ?_⟩
  · simp [save_plagiarism_result, writeRecord]
  · simp [save_plagiarism_result, writeRecord]
  · intro h
    have := congrArg ComparisonResult.composite_score h
    simp [mkSimpleResult] at this

/-- Claim C8 (amended): each save writes one record under the name
`plagiarism_result_<timestamp>.json` built from the second-resolution save
timestamp;  saves at distinct timestamps create distinct records and leave
every other stored record unchanged, but saves within the same second reuse
the same name and the later one overwrites the earlier. -/
theorem save_distinct_timestamps_frame (store : FileStore) (ts1 ts2 : String)
    (r1 r2 : ComparisonResult) (h : ts1 ≠ ts2) :
    save_plagiarism_result ts2 r2 (save_plagiarism_result ts1 r1 store)
        (plagiarismFileName ts1) = some r1 ∧
    save_plagiarism_result ts2 r2 (save_plagiarism_result ts1 r1 store)
        (plagiarismFileName ts2) = some r2 ∧
    (∀ n, n ≠ plagiarismFileName ts1 → n ≠ plagiarismFileName ts2 →
      save_plagiarism_result ts2 r2 (save_plagiarism_result ts1 r1 store) n =
        store n) := by
  have hne : plagiarismFileName ts1 ≠ plagiarismFileName ts2 :=
    fun hc => h (plagiarismFileName_inj ts1 ts2 hc)
  refine ⟨?_, ?_, ?_⟩
  · simp [save_plagiarism_result, writeRecord, hne]
  · simp [save_plagiarism_result, writeRecord]
  · intro n hn1 hn2
    simp [save_plagiarism_result, writeRecord, hn1, hn2]

theorem save_distinct_timestamps_frame_witness :
    save_plagiarism_result ("B") (mkSimpleResult 2)
        (save_plagiarism_result ("A") (mkSimpleResult 1) emptyStore)
        (plagiarismFileName ("A")) = some (mkSimpleResult 1) :=
  (save_distinct_timestamps_frame emptyStore ("A") ("B")
    (mkSimpleResult 1) (mkSimpleResult 2) (by decide)).1

/-- The sorted stage of a query is sorted by descending composite score. -/
theorem querySorted_sorted (store : List (Option ComparisonResult))
    (course level : Option String) :
    List.Sorted byCompositeDesc (querySorted store course level) :=
  List.sorted_insertionSort byCompositeDesc _

/-- Claim C9: a query returns records sorted by composite score descending
for any limit; with no limit the output is a permutation of exactly the
parsed records passing the filters (corrupt entries are skipped, with no
exception reaching the caller — dropping the corrupt entries from the store
leaves every query unchanged); a nonzero limit truncates the sorted output;
every returned record is a filter-passing record of the store. -/
theorem query_sorted_filtered_truncated (store : List (Option ComparisonResult))
    (course level : Option String) :
    (∀ limit, List.Sorted byCompositeDesc
      (get_plagiarism_results store course level limit)) ∧
    (get_plagiarism_results store course level none).Perm
      (queryFiltered store course level) ∧
    (∀ l : Nat, l ≠ 0 →
      get_plagiarism_results store course level (some l) =
        (get_plagiarism_results store course level none).take l) ∧
    (∀ r ∈ get_plagiarism_results store course level none,
      some r ∈ store ∧ keepRecord course level r = true) ∧
    (∀ limit, get_plagiarism_results store course level limit =
      get_plagiarism_results ((store.filterMap id).map some) course level limit) := by
  refine ⟨?_, ?_, ?_, ?_, ?_⟩
  · intro limit
    cases limit with
    | none => exact querySorted_sorted store course level
    | some l =>
      by_cases hl : l = 0
      · simpa [get_plagiarism_results, hl] using querySorted_sorted store course level
      · rw [get_plagiarism_results]
        rw [if_neg hl]
        exact (querySorted_sorted store course level).sublist
          (List.take_sublist _ _)
  · exact List.perm_insertionSort byCompositeDesc _
  · intro l hl
    simp [get_plagiarism_results, hl]
  · intro r hr
    have h1 : r ∈ queryFiltered store course level :=
      ((List.perm_insertionSort byCompositeDesc _).mem_iff).mp hr
    rw [queryFiltered, List.mem_filter] at h1
    refine ⟨?_, h1.2⟩
    obtain ⟨o, ho, hor⟩ := List.mem_filterMap.mp h1.1
    cases o with
    | none => exact absurd hor (by simp)
    | some r' =>
      obtain rfl : r' = r := Option.some.inj hor
      exact ho
  · intro limit
    have hst : (((store.filterMap id).map some).filterMap
        (id : Option ComparisonResult → Option ComparisonResult)) =
        store.filterMap id := by
      rw [List.filterMap_map]
      simp [Function.comp]
    cases limit with
    | none => simp [get_plagiarism_results, querySorted, queryFiltered, hst]
    | some l => simp [get_plagiarism_results, querySorted, queryFiltered, hst]

unseal Rat.mul Rat.inv Rat.add Rat.sub Rat.ofScientific in
theorem query_sorted_filtered_truncated_witness :
    get_plagiarism_results storeW none none (some 1) =
      (get_plagiarism_results storeW none none none).take 1 :=
  (query_sorted_filtered_truncated storeW none none).2.2.1 1 (by decide)

end GradeFlow
